import Mathlib

/-!
Verification of the two Ansible modules of christofferlind/ansible-karaf-module:
`karaf_config.py` (set/delete properties of a running Karaf instance) and
`karaf_feature.py` (install/uninstall Karaf features).

The Python sources are shallowly embedded: every subprocess invocation
(`module.run_command`) is modelled by passing the `(rc, stdout, stderr)`
response triple to the embedded function and recording the issued command
string in a trace; `module.fail_json` / `module.exit_json` terminate the
module and are modelled as outcome constructors; an uncaught Python
exception (such as `IndexError`) is modelled as `none` / a `crashed`
outcome.  Python strings are Lean `String`s, with the handful of `str`
methods the sources use re-implemented over `List Char` below.
-/

set_option linter.unusedVariables false

/-! ## Python string primitives -/

/-- Whitespace as stripped by Python `str.strip()` (ASCII subset). -/
def pySpace (c : Char) : Bool :=
  c == ' ' || c == '\t' || c == '\n' || c == '\r' || c == '\x0b' || c == '\x0c'

/-- Model of Python `str.strip()` on the character list. -/
def pyStrip (cs : List Char) : List Char :=
  (((cs.dropWhile pySpace).reverse).dropWhile pySpace).reverse

/-- Model of Python `str.strip()` on strings. -/
def pyStripS (s : String) : String :=
  String.mk (pyStrip s.toList)

/-- ASCII lower-casing of one character, as Python `str.lower()` does on the
inputs occurring in this program. -/
def pyLowerChar (c : Char) : Char :=
  if 'A' ≤ c && c ≤ 'Z' then Char.ofNat (c.toNat + 32) else c

/-- Model of Python `str.lower()` (ASCII subset). -/
def pyLower (s : String) : String :=
  String.mk (s.toList.map pyLowerChar)

/-- Helper for `pySplit`: accumulates the current field (reversed). -/
def pySplitAux (sep : Char) : List Char → List Char → List (List Char)
  | [], acc => [acc.reverse]
  | c :: rest, acc =>
    if c = sep then acc.reverse :: pySplitAux sep rest []
    else pySplitAux sep rest (c :: acc)

/-- Model of Python `str.split(sep)` for a one-character separator: splitting
the empty string gives `[""]`, and separators at the ends give empty fields,
exactly as in Python. -/
def pySplit (s : String) (sep : Char) : List String :=
  (pySplitAux sep s.toList []).map String.mk

/-! ## Python number and bool parsing (the builtins used by `convert`) -/

/-- Value of a list of decimal digit characters. -/
def digitsToNat (cs : List Char) : Nat :=
  cs.foldl (fun a c => a * 10 + (c.toNat - 48)) 0

/-- Model of the Python builtin `int(str)` on its ASCII decimal grammar:
optional surrounding whitespace, an optional sign, then one or more digits.
(Underscore digit separators and non-ASCII digits are outside the model;
`none` models a raised `ValueError`.) -/
def pyInt (s : String) : Option Int :=
  let cs := pyStrip s.toList
  let signRest : Int × List Char :=
    match cs with
    | '+' :: t => (1, t)
    | '-' :: t => (-1, t)
    | _ => (1, cs)
  if !signRest.2.isEmpty && signRest.2.all Char.isDigit then
    some (signRest.1 * (digitsToNat signRest.2 : Int))
  else none

/-- Exact decimal value `m / 10 ^ e`, the value denoted by a Python float
literal.  The fraction is kept unnormalized; numeric equality is decided by
cross-multiplication in `floatEqNum`. -/
structure FloatVal where
  m : Int
  e : Nat
deriving DecidableEq

/-- Helper for `pyFloat`: parses the part after the `e`/`E` marker and applies
the decimal exponent to the mantissa `m / 10 ^ e`. -/
def pyFloatExp (m : Int) (e : Nat) (t : List Char) : Option FloatVal :=
  let signDigits : Bool × List Char :=
    match t with
    | '+' :: u => (true, u)
    | '-' :: u => (false, u)
    | _ => (true, t)
  if !signDigits.2.isEmpty && signDigits.2.all Char.isDigit then
    let ex := digitsToNat signDigits.2
    some (if signDigits.1 then ⟨m * (10 : Int) ^ ex, e⟩ else ⟨m, e + ex⟩)
  else none

/-- Model of the Python builtin `float(str)` on its finite decimal grammar:
optional surrounding whitespace, optional sign, digits with an optional
decimal point, and an optional decimal exponent.  The value is kept as the
exact decimal denoted by the literal (the binary64 rounding of CPython, and
the words `inf`/`infinity`/`nan`, are outside the model; `none` models a
raised `ValueError`). -/
def pyFloat (s : String) : Option FloatVal :=
  let cs := pyStrip s.toList
  let signRest : Int × List Char :=
    match cs with
    | '+' :: t => (1, t)
    | '-' :: t => (-1, t)
    | _ => (1, cs)
  let cs1 := signRest.2
  let ip := cs1.takeWhile Char.isDigit
  let cs2 := cs1.dropWhile Char.isDigit
  let fpRest : List Char × List Char :=
    match cs2 with
    | '.' :: t => (t.takeWhile Char.isDigit, t.dropWhile Char.isDigit)
    | _ => ([], cs2)
  let fp := fpRest.1
  if ip.isEmpty && fp.isEmpty then none
  else
    let m : Int := signRest.1 * (digitsToNat (ip ++ fp) : Int)
    match fpRest.2 with
    | [] => some ⟨m, fp.length⟩
    | 'e' :: t => pyFloatExp m fp.length t
    | 'E' :: t => pyFloatExp m fp.length t
    | _ => none

/-! ## The value model shared by both modules -/

/-- Tagged scalar value: a Python value as produced by `convert` and as
supplied in the desired-properties dict (bool, int, float-as-rational, or
string). -/
inductive Value where
  | vint : Int → Value
  | vfloat : FloatVal → Value
  | vbool : Bool → Value
  | vstr : String → Value
deriving DecidableEq

/-- Numeric view of a value as an exact decimal `m / 10 ^ e`: Python treats
`bool` as an integer (`True == 1`) and compares `int` and `float`
numerically; strings have no numeric view. -/
def valueNum? : Value → Option (Int × Nat)
  | .vint n => some (n, 0)
  | .vfloat q => some (q.m, q.e)
  | .vbool b => some (if b then 1 else 0, 0)
  | .vstr _ => none

/-- Equality of two exact decimals `a.1 / 10 ^ a.2` and `b.1 / 10 ^ b.2` by
cross-multiplication. -/
def floatEqNum (a b : Int × Nat) : Bool :=
  a.1 * (10 : Int) ^ b.2 == b.1 * (10 : Int) ^ a.2

/-- Model of the Python `==` relation on the values occurring in this
program: strings compare only with strings, everything else compares by its
numeric view. -/
def pyEq (a b : Value) : Bool :=
  match a, b with
  | .vstr s, .vstr t => s == t
  | .vstr _, _ => false
  | _, .vstr _ => false
  | a, b =>
    match valueNum? a, valueNum? b with
    | some x, some y => floatEqNum x y
    | _, _ => false

/-- Model of the Python percent-s string formatting of a value (the decimal
rendering abstracts CPython float `repr`; no claim inspects it). -/
def pyStr : Value → String
  | .vint n => toString n
  | .vfloat q => toString q.m ++ "e-" ++ toString q.e
  | .vbool b => if b then "True" else "False"
  | .vstr s => s

/-! ## Python dicts (string-keyed, insertion-ordered association lists) -/

/-- Model of Python dict lookup `d[k]` / `d.get(k)`: the value of the first
(and, for a genuine dict, only) entry with key `k`. -/
def dictGet? : List (String × Value) → String → Option Value
  | [], _ => none
  | kv :: rest, k => if kv.1 == k then some kv.2 else dictGet? rest k

/-- Model of the Python `k in d` membership test. -/
def dictHas (d : List (String × Value)) (k : String) : Bool :=
  (dictGet? d k).isSome

/-- Model of Python dict assignment `d[k] = v`: an existing entry keeps its
position and gets the new value, a new key is appended at the end. -/
def dictSet : List (String × Value) → String → Value → List (String × Value)
  | [], k, v => [(k, v)]
  | kv :: rest, k, v => if kv.1 == k then (k, v) :: rest else kv :: dictSet rest k v

namespace KarafConfig

/-- The recognized boolean words of `karaf_config.py` (`_BOOL_TYPES`). -/
def BOOL_TYPES : List String := ["true", "false", "yes", "no", "y", "n"]

/-- Model of `check_bool` from `karaf_config.py`: `none` models the raised
`ValueError` when the lowercased value is not one of the six boolean words;
otherwise true exactly for `true`/`yes`/`y`. -/
def check_bool (value : String) : Option Bool :=
  if !(BOOL_TYPES.contains (pyLower value)) then none
  else
    let v := pyLower value
    some (v == "true" || v == "yes" || v == "y")

/-- Model of `convert` from `karaf_config.py`: try `int`, then `float`, then
`check_bool`, then `str`; `str` of a string is the string itself and never
fails, so the function is total. -/
def convert (val : String) : Value :=
  match pyInt val with
  | some n => .vint n
  | none =>
    match pyFloat val with
    | some q => .vfloat q
    | none =>
      match check_bool val with
      | some b => .vbool b
      | none => .vstr val

/-- Model of the loop body of `existing_properties` (`karaf_config.py`
lines 85-93): a line without an `=` is skipped (`continue`); otherwise
`i = line.find('=')` splits the line at its first `=`, the part before it is
stripped and used as the property name, the part after it is stripped,
passed through `convert`, and assigned into the result dict. -/
def parse_config_line (result : List (String × Value)) (line : String) : List (String × Value) :=
  let cs := line.toList
  if !cs.contains '=' then result
  else
    let pre := cs.takeWhile (fun c => !(c == '='))
    let post := (cs.dropWhile (fun c => !(c == '='))).tail
    dictSet result (pyStripS (String.mk pre)) (convert (pyStripS (String.mk post)))

/-- The batched query command built by `existing_properties`: one
`config:property-get` per requested property, joined with `&&` and wrapped
in a quoted client invocation. -/
def existing_properties_cmd (client_bin name : String) (new_properties : List (String × Value)) : String :=
  let karaf_cmd := " && ".intercalate ((new_properties.map Prod.fst).map
    (fun prop => "config:property-get --raw --pid " ++ name ++ " " ++ prop))
  client_bin ++ " \"" ++ karaf_cmd ++ "\""

/-- Model of `existing_properties` from `karaf_config.py`: the query
subprocess call is modelled by the response triple `resp`; its stdout is
split on newlines and folded through `parse_config_line`.  The exit code and
stderr of the query are bound but never used, exactly as in the source. -/
def existing_properties (client_bin name : String) (new_properties : List (String × Value))
    (resp : Int × String × String) : List (String × Value) :=
  let out := resp.2.1
  let lines := pySplit out '\n'
  lines.foldl parse_config_line []

/-- The diff of `config_property_set` (`karaf_config.py` line 105): keys of
the desired dict that are missing from the observed dict or whose observed
value is `!=` the desired one (short-circuit `or`, Python `!=` on values). -/
def need_change (new_properties existing_props : List (String × Value)) : List String :=
  (new_properties.filter (fun kv =>
    match dictGet? existing_props kv.1 with
    | none => true
    | some w => !(pyEq w kv.2))).map Prod.fst

/-- The diff of `config_property_delete` (`karaf_config.py` line 134): keys
of the desired dict that are present in the observed dict. -/
def need_delete (properties existing_props : List (String × Value)) : List String :=
  (properties.map Prod.fst).filter (fun k => dictHas existing_props k)

/-- The result dict built by both config handlers (`changed`,
`original_message`, `message`). -/
structure ConfigResult where
  changed : Bool
  original_message : String
  message : String
deriving DecidableEq

/-- Model of `config_property_set` from `karaf_config.py`: the query
subprocess call is modelled by `queryResp` and the (single, batched)
mutating call by `mutResp`; the returned list of strings is the trace of
mutating invocations actually issued.  The `rc, out, err` of the mutation
are bound but never inspected, exactly as in the source. -/
def config_property_set (client_bin name : String) (check_mode : Bool)
    (new_properties : List (String × Value)) (queryResp mutResp : Int × String × String) :
    ConfigResult × List String :=
  let result : ConfigResult := ⟨false, "", ""⟩
  let existing_props := existing_properties client_bin name new_properties queryResp
  let need := need_change new_properties existing_props
  if need.isEmpty then (result, [])
  else if check_mode then (⟨true, result.original_message, result.message⟩, [])
  else
    let karaf_cmd := " && ".intercalate ((new_properties.filter (fun kv => need.contains kv.1)).map
      (fun kv => "config:property-set --pid \"" ++ name ++ "\" " ++ kv.1 ++ " " ++ pyStr kv.2))
    let cmd := client_bin ++ " \"" ++ karaf_cmd ++ "\""
    let rcOutErr := mutResp
    (⟨true, result.original_message, result.message⟩, [cmd])

/-- Model of `config_property_delete` from `karaf_config.py`, with the same
subprocess conventions as `config_property_set`. -/
def config_property_delete (client_bin name : String) (check_mode : Bool)
    (properties : List (String × Value)) (queryResp mutResp : Int × String × String) :
    ConfigResult × List String :=
  let result : ConfigResult := ⟨false, "", ""⟩
  let existing_props := existing_properties client_bin name properties queryResp
  let need := need_delete properties existing_props
  if need.isEmpty then (result, [])
  else if check_mode then (⟨true, result.original_message, result.message⟩, [])
  else
    let karaf_cmd := " && ".intercalate (((properties.map Prod.fst).filter
      (fun k => need.contains k)).map
      (fun k => "config:property-delete --pid \"" ++ name ++ "\" " ++ k))
    let cmd := client_bin ++ " \"" ++ karaf_cmd ++ "\""
    let rcOutErr := mutResp
    (⟨true, result.original_message, result.message⟩, [cmd])

end KarafConfig

namespace KarafFeature

/-- The state value that counts as not installed (`FEATURE_STATE_UNINSTALLED`). -/
def FEATURE_STATE_UNINSTALLED : String := "Uninstalled"

/-- The two-slot command template of `karaf_feature.py`: the client binary
followed by the single-quoted feature command. -/
def CLIENT_KARAF_COMMAND (bin op : String) : String :=
  bin ++ " \x27feature:" ++ op ++ "\x27"

/-- The three-slot command template of `karaf_feature.py`: the client binary
followed by the single-quoted feature command and its argument. -/
def CLIENT_KARAF_COMMAND_WITH_ARGS (bin op args : String) : String :=
  bin ++ " \x27feature:" ++ op ++ " " ++ args ++ "\x27"

/-- Model of Python truthiness of the optional `version` parameter:
`None` and the empty string are falsy. -/
def pyTruthy : Option String → Bool
  | none => false
  | some s => !(s == "")

/-- Model of the loop body of `is_feature_installed` (`karaf_feature.py`
lines 91-104) acting on the running `is_installed` flag: the line is split
on `|`; with more than two fields the trimmed fields 0 (name), 1 (version)
and 3 (state) are read — reading field 3 of a three-field line raises
`IndexError`, modelled by `none`; a record whose state differs from
`Uninstalled` sets the flag when the name (and, when a version was
requested, the version) matches. -/
def feature_line_step (feature_name : String) (feature_version : Option String)
    (is_installed : Bool) (line : String) : Option Bool :=
  let feature_data := pySplit line '|'
  if feature_data.length > 2 then
    match feature_data[3]? with
    | none => none
    | some f3 =>
      let name := pyStripS (feature_data.headD "")
      let version := pyStripS (feature_data[1]?.getD "")
      let state := pyStripS f3
      if state == FEATURE_STATE_UNINSTALLED then some is_installed
      else
        if pyTruthy feature_version then
          if name == feature_name && version == feature_version.getD "" then some true
          else some is_installed
        else
          if name == feature_name then some true
          else some is_installed
  else some is_installed

/-- The `for line in lines` loop of `is_feature_installed`, threading the
`is_installed` flag; `none` propagates an uncaught `IndexError`. -/
def feature_scan (feature_name : String) (feature_version : Option String) :
    Bool → List String → Option Bool
  | is_installed, [] => some is_installed
  | is_installed, line :: rest =>
    match feature_line_step feature_name feature_version is_installed line with
    | none => none
    | some b => feature_scan feature_name feature_version b rest

/-- Model of `is_feature_installed` from `karaf_feature.py`: the
`feature:list` subprocess call is modelled by its response triple
`(rc, out, err)`; only `out` is ever read.  `some b` is the returned
boolean, `none` an uncaught `IndexError` escaping the function. -/
def is_feature_installed (rc : Int) (out err : String) (feature_name : String)
    (feature_version : Option String) : Option Bool :=
  let lines := pySplit out '\n'
  feature_scan feature_name feature_version false lines

/-- Index of the first occurrence of `pat` in `hay`, the search behind
Python `str.index`; `none` models the raised `ValueError`. -/
def strIndex : List Char → List Char → Nat → Option Nat
  | hay, pat, i =>
    if pat.isPrefixOf hay then some i
    else
      match hay with
      | [] => none
      | _ :: t => strIndex t pat (i + 1)

/-- Model of `parse_error` from `karaf_feature.py`: everything after the
first `"reason: "` marker, stripped; the whole string when the marker is
absent (`str.index` raising `ValueError`, caught in the source). -/
def parse_error (s : String) : String :=
  let reason := "reason: ".toList
  match strIndex s.toList reason 0 with
  | some i => pyStripS (String.mk ((s.toList).drop (i + reason.length)))
  | none => s

/-- Model of `install_feature` from `karaf_feature.py`: builds the
`feature:install` command; on non-zero exit the module fails with the parsed
reason (`Except.error`), otherwise it returns `(True, cmd, out, err)`. -/
def install_feature (client_bin : String) (feature_name : String)
    (resp : Int × String × String) : Except String (Bool × String × String × String) :=
  let cmd := CLIENT_KARAF_COMMAND_WITH_ARGS client_bin "install" feature_name
  let rc := resp.1
  let out := resp.2.1
  let err := resp.2.2
  if rc ≠ 0 then .error (parse_error out)
  else .ok (true, cmd, out, err)

/-- Model of `uninstall_feature` from `karaf_feature.py`; identical to
`install_feature` with the `uninstall` verb. -/
def uninstall_feature (client_bin : String) (feature_name : String)
    (resp : Int × String × String) : Except String (Bool × String × String × String) :=
  let cmd := CLIENT_KARAF_COMMAND_WITH_ARGS client_bin "uninstall" feature_name
  let rc := resp.1
  let out := resp.2.1
  let err := resp.2.2
  if rc ≠ 0 then .error (parse_error out)
  else .ok (true, cmd, out, err)

/-- Terminal outcome of one invocation of the feature module:
`failed` models `module.fail_json(msg=...)` (the message keeps the raw
Python value), `exitUnchanged` the early `module.exit_json(changed=False,
name=..., state=...)`, `exitFinal` the final `module.exit_json(changed=...,
cmd=..., name=..., state=..., stdout=..., stderr=...)`, and `crashed` an
uncaught Python exception. -/
inductive FMOutcome where
  | failed : Value → FMOutcome
  | exitUnchanged : String → String → FMOutcome
  | exitFinal : Bool → String → String → String → String → String → FMOutcome
  | crashed : FMOutcome
deriving DecidableEq

/-- Model of `main` from `karaf_feature.py`.  `listResp` is the response of
the `feature:list` query, `mutResp` the response of the install/uninstall
command (used at most once per invocation).  The second component is the
trace of subprocess commands issued, in order.  `force == True` is the
Python comparison, and `module.fail_json` terminates the module, so the
uninstall/install pair following it in the source is unreachable. -/
def karaf_feature_main (client_bin name : String) (version : Option String)
    (state : String) (force : Value)
    (listResp mutResp : Int × String × String) : FMOutcome × List String :=
  let full_qualified_name :=
    if pyTruthy version then name ++ "/" ++ version.getD "" else name
  if pyEq force (.vbool true) && state == "present" then
    (.failed force, [])
  else
    let listCmd := CLIENT_KARAF_COMMAND client_bin "list"
    match is_feature_installed listResp.1 listResp.2.1 listResp.2.2 name version with
    | none => (.crashed, [listCmd])
    | some is_installed =>
      if (is_installed && state == "present") || (state == "absent" && !is_installed) then
        (.exitUnchanged full_qualified_name state, [listCmd])
      else if state == "present" then
        let cmd := CLIENT_KARAF_COMMAND_WITH_ARGS client_bin "install" full_qualified_name
        match install_feature client_bin full_qualified_name mutResp with
        | .error msg => (.failed (.vstr msg), [listCmd, cmd])
        | .ok (chg, c, o, e) => (.exitFinal chg c full_qualified_name state o e, [listCmd, cmd])
      else if state == "absent" then
        let cmd := CLIENT_KARAF_COMMAND_WITH_ARGS client_bin "uninstall" full_qualified_name
        match uninstall_feature client_bin full_qualified_name mutResp with
        | .error msg => (.failed (.vstr msg), [listCmd, cmd])
        | .ok (chg, c, o, e) => (.exitFinal chg c full_qualified_name state o e, [listCmd, cmd])
      else
        (.exitFinal false "" full_qualified_name state "" "", [listCmd])

end KarafFeature


namespace KarafConfig

lemma contains_BOOL_TYPES (t : String) :
    BOOL_TYPES.contains t =
      (t == "true" || t == "false" || t == "yes" || t == "no" || t == "y" || t == "n") := by
  simp [BOOL_TYPES, List.contains, List.elem]
  cases h1 : t == "true" <;> cases h2 : t == "false" <;> cases h3 : t == "yes" <;>
    cases h4 : t == "no" <;> cases h5 : t == "y" <;> cases h6 : t == "n" <;> simp_all

lemma check_bool_some_true_iff (s : String) :
    check_bool s = some true ↔ (pyLower s = "true" ∨ pyLower s = "yes" ∨ pyLower s = "y") := by
  unfold check_bool
  generalize pyLower s = t
  rw [contains_BOOL_TYPES]
  cases h1 : t == "true" <;> cases h2 : t == "false" <;> cases h3 : t == "yes" <;>
    cases h4 : t == "no" <;> cases h5 : t == "y" <;> cases h6 : t == "n" <;>
    simp_all [beq_iff_eq]

lemma check_bool_some_false_iff (s : String) :
    check_bool s = some false ↔ (pyLower s = "false" ∨ pyLower s = "no" ∨ pyLower s = "n") := by
  unfold check_bool
  generalize pyLower s = t
  rw [contains_BOOL_TYPES]
  cases h1 : t == "true" <;> cases h2 : t == "false" <;> cases h3 : t == "yes" <;>
    cases h4 : t == "no" <;> cases h5 : t == "y" <;> cases h6 : t == "n" <;>
    simp_all [beq_iff_eq]

/-- Claim C3: `convert` is total with the strict fallback order int → float →
boolean word → string: an input accepted by the integer parser converts to
that integer; otherwise one accepted by the float parser converts to that
float; otherwise one of the six case-insensitive boolean words converts to
the corresponding boolean (`true`/`yes`/`y` ↦ true, `false`/`no`/`n` ↦
false); otherwise the input string is returned unchanged — so `convert`
never fails.  In particular `convert "42"` is the integer 42, `convert
"3.14"` is the float 3.14 (the exact decimal 314/10²), `convert "true"` is
boolean true, `convert "No"` is boolean false and `convert "hello"` is the
string `"hello"`. -/
theorem convert_fallback_order :
    (∀ s n, pyInt s = some n → convert s = .vint n) ∧
    (∀ s q, pyInt s = none → pyFloat s = some q → convert s = .vfloat q) ∧
    (∀ s b, pyInt s = none → pyFloat s = none → check_bool s = some b → convert s = .vbool b) ∧
    (∀ s, pyInt s = none → pyFloat s = none → check_bool s = none → convert s = .vstr s) ∧
    (∀ s, check_bool s = some true ↔ (pyLower s = "true" ∨ pyLower s = "yes" ∨ pyLower s = "y")) ∧
    (∀ s, check_bool s = some false ↔ (pyLower s = "false" ∨ pyLower s = "no" ∨ pyLower s = "n")) ∧
    convert "42" = .vint 42 ∧ convert "3.14" = .vfloat ⟨314, 2⟩ ∧
    convert "true" = .vbool true ∧ convert "No" = .vbool false ∧
    convert "hello" = .vstr "hello" := by
  refine ⟨?_, ?_, ?_, ?_, check_bool_some_true_iff, check_bool_some_false_iff,
    by decide, by decide, by decide, by decide, by decide⟩
  · intro s n h; simp [convert, h]
  · intro s q h1 h2; simp [convert, h1, h2]
  · intro s b h1 h2 h3; simp [convert, h1, h2, h3]
  · intro s h1 h2 h3; simp [convert, h1, h2, h3]

/-- Witness for C3 at a concrete input with the hypotheses discharged:
`" 7 "` parses as an integer, so it converts to the integer 7. -/
theorem convert_fallback_order_witness : convert " 7 " = .vint 7 :=
  convert_fallback_order.1 " 7 " 7 (by decide)

end KarafConfig

lemma dictGet?_eq_some_iff (d : List (String × Value)) (hnd : (d.map Prod.fst).Nodup)
    (k : String) (v : Value) : dictGet? d k = some v ↔ (k, v) ∈ d := by
  induction d with
  | nil => simp [dictGet?]
  | cons kv t ih =>
    obtain ⟨a, b⟩ := kv
    simp only [List.map_cons, List.nodup_cons] at hnd
    by_cases hk : a = k
    · subst hk
      simp only [dictGet?, beq_self_eq_true, if_true, Option.some.injEq, List.mem_cons]
      constructor
      · intro h; exact Or.inl (by rw [h])
      · rintro (h | h)
        · cases h; rfl
        · exact absurd (List.mem_map_of_mem Prod.fst h) hnd.1
    · have hbeq : (a == k) = false := by simp [hk]
      simp only [dictGet?, hbeq, Bool.false_eq_true, if_false, List.mem_cons]
      rw [ih hnd.2]
      constructor
      · exact fun h => Or.inr h
      · rintro (h | h)
        · cases h; exact absurd rfl hk
        · exact h

namespace KarafConfig

/-- Claim C1: diff-engine characterization.  For `state=present`
(`need_change`), the keys needing change are exactly the desired keys that
are missing from the observed dict or whose observed value differs (Python
value equality on converted values) from the desired value; for
`state=absent` (`need_delete`), the keys needing deletion are exactly the
desired keys present in the observed dict; and a key whose observed value
equals its desired value is never in the needs-change set. -/
theorem diff_engine_characterization (new_properties existing_props : List (String × Value))
    (hnd : (new_properties.map Prod.fst).Nodup) (k : String) :
    (k ∈ need_change new_properties existing_props ↔
      ∃ v, dictGet? new_properties k = some v ∧
        (dictGet? existing_props k = none ∨
         ∃ w, dictGet? existing_props k = some w ∧ pyEq w v = false)) ∧
    (k ∈ need_delete new_properties existing_props ↔
      k ∈ new_properties.map Prod.fst ∧ dictHas existing_props k = true) ∧
    (∀ v w, dictGet? new_properties k = some v → dictGet? existing_props k = some w →
      pyEq w v = true → k ∉ need_change new_properties existing_props) := by
  have hchange : k ∈ need_change new_properties existing_props ↔
      ∃ v, dictGet? new_properties k = some v ∧
        (dictGet? existing_props k = none ∨
         ∃ w, dictGet? existing_props k = some w ∧ pyEq w v = false) := by
    unfold need_change
    rw [List.mem_map]
    constructor
    · rintro ⟨⟨a, v⟩, hmem, hfst⟩
      obtain ⟨hmemnew, hp⟩ := List.mem_filter.mp hmem
      cases hfst
      refine ⟨v, (dictGet?_eq_some_iff _ hnd _ _).mpr hmemnew, ?_⟩
      rcases hw : dictGet? existing_props a with _ | w
      · exact Or.inl rfl
      · rw [hw] at hp
        simp only [Bool.not_eq_true'] at hp
        exact Or.inr ⟨w, rfl, hp⟩
    · rintro ⟨v, hv, hcase⟩
      refine ⟨(k, v), List.mem_filter.mpr ⟨(dictGet?_eq_some_iff _ hnd _ _).mp hv, ?_⟩, rfl⟩
      rcases hcase with hnone | ⟨w, hw, hne⟩
      · simp only [hnone]
      · simp only [hw, hne, Bool.not_false]
  refine ⟨hchange, ?_, ?_⟩
  · simp [need_delete, List.mem_filter]
  · intro v w hv hw heq hmem
    obtain ⟨v', hv', hcase⟩ := hchange.mp hmem
    rw [hv] at hv'
    cases hv'
    rcases hcase with hnone | ⟨w', hw', hne⟩
    · rw [hw] at hnone; cases hnone
    · rw [hw] at hw'
      cases hw'
      rw [heq] at hne
      cases hne

/-- Witness for C1: with desired `a=1, b=True` and observed `a=1`, key `b`
is in the needs-change set (it is missing from the observed dict). -/
theorem diff_engine_characterization_witness :
    "b" ∈ need_change [("a", Value.vint 1), ("b", Value.vbool true)] [("a", Value.vint 1)] :=
  ((diff_engine_characterization [("a", Value.vint 1), ("b", Value.vbool true)]
      [("a", Value.vint 1)] (by decide) "b").1).mpr
    ⟨Value.vbool true, by decide, Or.inl (by decide)⟩

end KarafConfig

lemma takeWhile_append_first_stop (p : Char → Bool) (pre post : List Char) (c : Char)
    (hpre : ∀ x ∈ pre, p x = true) (hc : p c = false) :
    (pre ++ c :: post).takeWhile p = pre := by
  induction pre with
  | nil => simp [List.takeWhile_cons, hc]
  | cons a t ih =>
    have ha : p a = true := hpre a (List.mem_cons_self a t)
    simp only [List.cons_append, List.takeWhile_cons, ha, if_true]
    rw [ih (fun x hx => hpre x (List.mem_cons_of_mem a hx))]

lemma dropWhile_append_first_stop (p : Char → Bool) (pre post : List Char) (c : Char)
    (hpre : ∀ x ∈ pre, p x = true) (hc : p c = false) :
    (pre ++ c :: post).dropWhile p = c :: post := by
  induction pre with
  | nil => simp [List.dropWhile_cons, hc]
  | cons a t ih =>
    have ha : p a = true := hpre a (List.mem_cons_self a t)
    simp only [List.cons_append, List.dropWhile_cons, ha, if_true]
    exact ih (fun x hx => hpre x (List.mem_cons_of_mem a hx))

namespace KarafConfig

/-- Counterexample to claim C8 as stated: the line `a=b=c` contains two `=`
separators (not exactly one), yet the parser does not skip it — it
contributes the property `a` with the converted remainder `b=c` as value. -/
theorem property_line_two_equals_counterexample :
    existing_properties "cb" "pid" [] (0, "a=b=c", "") = [("a", Value.vstr "b=c")] ∧
    ("a=b=c".toList.filter (fun c => c == '=')).length = 2 := by
  constructor <;> decide

/-- Claim C8 (amended): when parsing the property-get output line by line, a
line contributes a property if and only if it contains at least one `=`; for
such a line the property name is the trimmed substring before the FIRST `=`
and the value is the trimmed substring after that first `=` passed through
value conversion; every line without `=` is silently skipped and contributes
nothing.  (`existing_properties` folds `parse_config_line` over the lines of
the query stdout.) -/
theorem property_line_parsing (result : List (String × Value)) (line : String) :
    (line.toList.contains '=' = false → parse_config_line result line = result) ∧
    (∀ pre post : List Char, line.toList = pre ++ '=' :: post → '=' ∉ pre →
      parse_config_line result line =
        dictSet result (pyStripS (String.mk pre)) (convert (pyStripS (String.mk post)))) ∧
    (∀ client_bin name props rc out err,
      existing_properties client_bin name props (rc, out, err) =
        (pySplit out '\n').foldl parse_config_line []) := by
  refine ⟨?_, ?_, fun _ _ _ _ _ _ => rfl⟩
  · intro h
    simp only [parse_config_line]
    rw [h]
    simp
  · intro pre post hsplit hpre
    have hmem : ('=' : Char) ∈ line.toList := by
      rw [hsplit]; exact List.mem_append_right _ (List.mem_cons_self _ _)
    have hcont : line.toList.contains '=' = true := List.elem_iff.mpr hmem
    have hprep : ∀ x ∈ pre, (!(x == '=')) = true := by
      intro x hx
      simp only [Bool.not_eq_true', beq_eq_false_iff_ne, ne_eq]
      intro heq; exact hpre (heq ▸ hx)
    have hstop : (!(('=' : Char) == '=')) = false := by simp
    simp only [parse_config_line]
    rw [hcont]
    simp only [Bool.not_true, Bool.false_eq_true, if_false]
    rw [hsplit, takeWhile_append_first_stop _ pre post '=' hprep hstop,
      dropWhile_append_first_stop _ pre post '=' hprep hstop]
    rfl

/-- Witness for C8 (amended) at a concrete line: `"a = 1"` splits at its
first `=` into name `a` and converted value `1`. -/
theorem property_line_parsing_witness :
    parse_config_line [] "a = 1" = [("a", Value.vint 1)] := by
  have h := (property_line_parsing [] "a = 1").2.1 ['a', ' '] [' ', '1'] (by decide) (by decide)
  rw [h]; decide

end KarafConfig

namespace KarafConfig

/-- Claim C4: in each apply (`config_property_set`) or delete
(`config_property_delete`) pass, exactly one batched mutating subprocess
invocation is issued when at least one key needs changing (and the result
reports `changed=true`); zero mutating invocations are issued when no key
needs changing (and the result reports `changed=false`); and in check mode
no mutating invocation is ever issued while `changed` still reports whether
a change would occur. -/
theorem config_mutation_batching (client_bin name : String) (check : Bool)
    (props : List (String × Value)) (qResp mResp : Int × String × String) :
    ((need_change props (existing_properties client_bin name props qResp) ≠ [] → check = false →
        ((config_property_set client_bin name check props qResp mResp).2).length = 1 ∧
        (config_property_set client_bin name check props qResp mResp).1.changed = true) ∧
      (need_change props (existing_properties client_bin name props qResp) = [] →
        (config_property_set client_bin name check props qResp mResp).2 = [] ∧
        (config_property_set client_bin name check props qResp mResp).1.changed = false) ∧
      (check = true →
        (config_property_set client_bin name check props qResp mResp).2 = [] ∧
        ((config_property_set client_bin name check props qResp mResp).1.changed = true ↔
          need_change props (existing_properties client_bin name props qResp) ≠ []))) ∧
    ((need_delete props (existing_properties client_bin name props qResp) ≠ [] → check = false →
        ((config_property_delete client_bin name check props qResp mResp).2).length = 1 ∧
        (config_property_delete client_bin name check props qResp mResp).1.changed = true) ∧
      (need_delete props (existing_properties client_bin name props qResp) = [] →
        (config_property_delete client_bin name check props qResp mResp).2 = [] ∧
        (config_property_delete client_bin name check props qResp mResp).1.changed = false) ∧
      (check = true →
        (config_property_delete client_bin name check props qResp mResp).2 = [] ∧
        ((config_property_delete client_bin name check props qResp mResp).1.changed = true ↔
          need_delete props (existing_properties client_bin name props qResp) ≠ []))) := by
  constructor
  · refine ⟨?_, ?_, ?_⟩
    · intro hne hc
      subst hc
      have hie : (need_change props (existing_properties client_bin name props qResp)).isEmpty = false := by
        cases h : need_change props (existing_properties client_bin name props qResp) with
        | nil => exact absurd h hne
        | cons a t => rfl
      simp [config_property_set, hie]
    · intro hn
      have hie : (need_change props (existing_properties client_bin name props qResp)).isEmpty = true := by
        rw [hn]; rfl
      simp [config_property_set, hie]
    · intro hc
      subst hc
      by_cases hn : need_change props (existing_properties client_bin name props qResp) = []
      · have hie : (need_change props (existing_properties client_bin name props qResp)).isEmpty = true := by
          rw [hn]; rfl
        simp [config_property_set, hie, hn]
      · have hie : (need_change props (existing_properties client_bin name props qResp)).isEmpty = false := by
          cases h : need_change props (existing_properties client_bin name props qResp) with
          | nil => exact absurd h hn
          | cons a t => rfl
        simp [config_property_set, hie, hn]
  · refine ⟨?_, ?_, ?_⟩
    · intro hne hc
      subst hc
      have hie : (need_delete props (existing_properties client_bin name props qResp)).isEmpty = false := by
        cases h : need_delete props (existing_properties client_bin name props qResp) with
        | nil => exact absurd h hne
        | cons a t => rfl
      simp [config_property_delete, hie]
    · intro hn
      have hie : (need_delete props (existing_properties client_bin name props qResp)).isEmpty = true := by
        rw [hn]; rfl
      simp [config_property_delete, hie]
    · intro hc
      subst hc
      by_cases hn : need_delete props (existing_properties client_bin name props qResp) = []
      · have hie : (need_delete props (existing_properties client_bin name props qResp)).isEmpty = true := by
          rw [hn]; rfl
        simp [config_property_delete, hie, hn]
      · have hie : (need_delete props (existing_properties client_bin name props qResp)).isEmpty = false := by
          cases h : need_delete props (existing_properties client_bin name props qResp) with
          | nil => exact absurd h hn
          | cons a t => rfl
        simp [config_property_delete, hie, hn]

/-- Witness for C4: desired `a=1`, empty observed state, no check mode — one
batched mutating invocation is issued and the result reports changed. -/
theorem config_mutation_batching_witness :
    ((config_property_set "cb" "pid" false [("a", Value.vint 1)] (0, "", "") (1, "boom", "err")).2).length = 1 ∧
    (config_property_set "cb" "pid" false [("a", Value.vint 1)] (0, "", "") (1, "boom", "err")).1.changed = true :=
  (config_mutation_batching "cb" "pid" false [("a", Value.vint 1)] (0, "", "") (1, "boom", "err")).1.1
    (by decide) rfl

/-- Claim C9: the result record (changed flag and message fields) of both
config handlers is identical for any exit code, stdout and stderr of the
mutating subprocess command — the handlers never inspect the mutation
response and never fail because of it. -/
theorem config_mutation_response_ignored (client_bin name : String) (check : Bool)
    (props : List (String × Value)) (qResp m1 m2 : Int × String × String) :
    (config_property_set client_bin name check props qResp m1).1 =
      (config_property_set client_bin name check props qResp m2).1 ∧
    (config_property_delete client_bin name check props qResp m1).1 =
      (config_property_delete client_bin name check props qResp m2).1 :=
  ⟨rfl, rfl⟩

end KarafConfig

namespace KarafFeature

/-- Spec-side matching policy (follows the wording of the spec, for the
refinement claim C2): a line is a feature record when it splits on `|` into
more than two fields; it witnesses installation when its trimmed state
(field 3) differs from `Uninstalled`, its trimmed name (field 0) equals the
requested name and, whenever a version was requested, its trimmed version
(field 1) equals the requested version exactly. -/
def specFeatureMatch (feature_name : String) (feature_version : Option String)
    (line : String) : Bool :=
  let fd := pySplit line '|'
  decide (fd.length > 2) &&
    !(pyStripS (fd[3]?.getD "") == FEATURE_STATE_UNINSTALLED) &&
    (pyStripS (fd.headD "") == feature_name) &&
    (!pyTruthy feature_version || (pyStripS (fd[1]?.getD "") == feature_version.getD ""))

lemma feature_line_step_eq (fname : String) (fver : Option String) (acc : Bool) (line : String)
    (h : (pySplit line '|').length ≠ 3) :
    feature_line_step fname fver acc line = some (acc || specFeatureMatch fname fver line) := by
  unfold feature_line_step specFeatureMatch
  by_cases hlen : (pySplit line '|').length > 2
  · rcases h3 : (pySplit line '|')[3]? with _ | f3
    · exfalso
      rw [List.getElem?_eq_none_iff] at h3
      omega
    · rw [if_pos hlen]
      simp only [h3, Option.getD_some]
      have hd : decide ((pySplit line '|').length > 2) = true := decide_eq_true hlen
      simp only [hd, Bool.true_and]
      cases hstate : pyStripS f3 == FEATURE_STATE_UNINSTALLED <;>
        cases htr : pyTruthy fver <;>
        cases hname : pyStripS ((pySplit line '|').headD "") == fname <;>
        cases hver : pyStripS ((pySplit line '|')[1]?.getD "") == fver.getD "" <;>
        simp [hstate, htr, hname, hver]
  · rw [if_neg hlen]
    have : decide ((pySplit line '|').length > 2) = false := by
      simp [hlen]
    simp [this]

lemma feature_scan_eq (fname : String) (fver : Option String) (lines : List String) (acc : Bool)
    (h : ∀ line ∈ lines, (pySplit line '|').length ≠ 3) :
    feature_scan fname fver acc lines =
      some (acc || lines.any (specFeatureMatch fname fver)) := by
  induction lines generalizing acc with
  | nil => simp [feature_scan]
  | cons l t ih =>
    rw [feature_scan, feature_line_step_eq fname fver acc l (h l (List.mem_cons_self l t))]
    rw [show (match some (acc || specFeatureMatch fname fver l) with
        | none => (none : Option Bool)
        | some b => feature_scan fname fver b t) =
        feature_scan fname fver (acc || specFeatureMatch fname fver l) t from rfl]
    rw [ih _ (fun x hx => h x (List.mem_cons_of_mem l hx))]
    simp [List.any_cons, Bool.or_assoc]

/-- Claim C2: feature matching policy.  Whenever the `feature:list` stdout
contains no line splitting into exactly three `|`-fields (on such a line the
scan raises, see C7), `is_feature_installed` returns true if and only if
some record line — more than two `|`-fields, with trimmed name at field 0,
version at field 1 and state at field 3 — has a state other than
`Uninstalled`, the requested name, and, when a version was requested, exactly
the requested version; and it returns false exactly when no line matches. -/
theorem feature_match_policy (rc : Int) (out err : String) (fname : String) (fver : Option String)
    (h : ∀ line ∈ pySplit out '\n', (pySplit line '|').length ≠ 3) :
    (is_feature_installed rc out err fname fver = some true ↔
      ∃ line ∈ pySplit out '\n', specFeatureMatch fname fver line = true) ∧
    (is_feature_installed rc out err fname fver = some false ↔
      ∀ line ∈ pySplit out '\n', specFeatureMatch fname fver line = false) := by
  unfold is_feature_installed
  rw [feature_scan_eq fname fver (pySplit out '\n') false h]
  constructor
  · simp [List.any_eq_true]
  · simp [List.any_eq_false]

/-- Witness for C2: a well-formed listing with an installed `camel-jms` row
is reported as installed when no version is requested. -/
theorem feature_match_policy_witness :
    is_feature_installed 0 "camel-jms | 2.18.1 | x | Started |" "" "camel-jms" none = some true :=
  ((feature_match_policy 0 "camel-jms | 2.18.1 | x | Started |" "" "camel-jms" none
      (by decide)).1).mpr
    ⟨"camel-jms | 2.18.1 | x | Started |", by decide, by decide⟩

/-- Claim C7 (evidence of the code bug): a `feature:list` stdout line with
exactly three `|`-fields passes the `len(feature_data) > 2` guard but has no
field at index 3, so the scan raises `IndexError` (modelled by `none`)
instead of handling or skipping the line — parsing is not total. -/
theorem feature_three_field_line_crashes :
    is_feature_installed 0 "a|b|c" "" "camel-jms" none = none := by decide

/-- Claim C10: the result of `is_feature_installed` depends only on the
stdout of the `feature:list` command — equal stdout gives an equal result
whatever the exit code and stderr are — and a failed listing with empty
stdout (any exit code) is reported as not installed rather than as an
error. -/
theorem feature_depends_only_on_stdout (rc1 rc2 : Int) (out err1 err2 : String)
    (fname : String) (fver : Option String) :
    is_feature_installed rc1 out err1 fname fver =
      is_feature_installed rc2 out err2 fname fver ∧
    (∀ rc err, is_feature_installed rc "" err fname fver = some false) :=
  ⟨rfl, fun _ _ => rfl⟩

end KarafFeature

namespace KarafFeature

/-- Claim C6: whenever a force-install is requested (`force == True` in the
Python sense) together with `state=present`, the handler fails immediately
with the raw force value as the failure message, regardless of the current
installation state, and issues no subprocess command at all — in particular
neither the uninstall nor the install that follow in that code path. -/
theorem force_present_fails (client_bin fname : String) (fver : Option String)
    (state : String) (force : Value) (lResp mResp : Int × String × String)
    (hf : pyEq force (.vbool true) = true) (hs : state = "present") :
    karaf_feature_main client_bin fname fver state force lResp mResp =
      (.failed force, []) := by
  unfold karaf_feature_main
  rw [hs]
  simp [hf]

/-- Witness for C6: with `force=True` and `state=present` the module fails
with message `True` without running any command, although the queried
feature is not even installed. -/
theorem force_present_fails_witness :
    karaf_feature_main "cb" "f" (some "1.0") "present" (.vbool true) (0, "", "") (0, "", "") =
      (.failed (.vbool true), []) :=
  force_present_fails "cb" "f" (some "1.0") "present" (.vbool true) (0, "", "") (0, "", "")
    (by decide) rfl

/-- Claim C5: feature-handler unchanged path.  When the force+present
failure does not apply and the queried installation status already matches
the desired state (installed with `state=present`, or not installed with
`state=absent`), the handler exits with `changed=false` (the early
`exit_json`) having run only the `feature:list` query — no `feature:install`
or `feature:uninstall` command is executed. -/
theorem feature_unchanged_path (client_bin fname : String) (fver : Option String)
    (state : String) (force : Value) (lrc : Int) (lout lerr : String)
    (mResp : Int × String × String) (b : Bool)
    (hforce : ¬(pyEq force (.vbool true) = true ∧ state = "present"))
    (hinst : is_feature_installed lrc lout lerr fname fver = some b)
    (hmatch : (b = true ∧ state = "present") ∨ (state = "absent" ∧ b = false)) :
    karaf_feature_main client_bin fname fver state force (lrc, lout, lerr) mResp =
      (.exitUnchanged (if pyTruthy fver then fname ++ "/" ++ fver.getD "" else fname) state,
       [CLIENT_KARAF_COMMAND client_bin "list"]) := by
  unfold karaf_feature_main
  have hcond : (pyEq force (.vbool true) && state == "present") = false := by
    cases hp : pyEq force (.vbool true)
    · simp
    · simp only [Bool.true_and]
      by_cases hs : state = "present"
      · exact absurd ⟨hp, hs⟩ hforce
      · simp [hs]
  rw [hcond]
  dsimp only
  rw [hinst]
  have hc2 : ((b && state == "present") || (state == "absent" && !b)) = true := by
    rcases hmatch with ⟨hb, hs⟩ | ⟨hs, hb⟩ <;> subst hb <;> subst hs <;> simp
  simp [hc2]

/-- Witness for C5: `camel-jms` is already installed and `state=present`, so
the handler exits unchanged after the single `feature:list` query. -/
theorem feature_unchanged_path_witness :
    karaf_feature_main "cb" "camel-jms" none "present" (.vbool false)
      (0, "camel-jms | 2.18.1 | x | Started |", "") (0, "", "") =
      (.exitUnchanged "camel-jms" "present", [CLIENT_KARAF_COMMAND "cb" "list"]) :=
  feature_unchanged_path "cb" "camel-jms" none "present" (.vbool false)
    0 "camel-jms | 2.18.1 | x | Started |" "" (0, "", "") true
    (by decide) (by decide) (Or.inl ⟨rfl, rfl⟩)

end KarafFeature
